import Mathlib

/-!
Verification development for the ResearchCrew repository
(src/app.py, src/crew.py, src/utils.py).

The definitions below are a shallow embedding of the Python source:
pure data and control flow become Lean functions, the Streamlit secret
store becomes an association list, the process environment becomes a
function `String → Option String`, and Python text becomes `String`
(or `List Char` where character-level scanning matters).  Python floats
only ever carry simple sampling temperatures here, so they are embedded
as rationals.
-/

/-! ### Backend resolution (src/app.py, lines 30-56) -/

/-- Cloud-mode model catalog (src/app.py lines 37-41): Groq model names
mapped to display labels. -/
def cloud_model_options : List (String × String) :=
  [("deepseek-r1-distill-llama-70b", "Thinking (DeepSeek R1 - Cloud)"),
   ("llama-3.3-70b-versatile", "Fast (Llama 3.3 - Cloud)"),
   ("mixtral-8x7b-32768", "Pro (Mixtral - Cloud)")]

/-- Local-mode model catalog (src/app.py lines 49-53): Ollama model names
mapped to display labels. -/
def local_model_options : List (String × String) :=
  [("deepseek-r1:8b", "Thinking (DeepSeek R1 - Local)"),
   ("llama3.2", "Fast (Llama 3.2 - Local)"),
   ("mistral", "Pro (Mistral - Local)")]

/-- The resolved backend configuration: the module-level variables
`env_mode`, `api_key`, `base_url`, `model_options` set by the
`if "GROQ_API_KEY" in st.secrets` block of src/app.py. -/
structure BackendConfig where
  env_mode : String
  api_key : String
  base_url : String
  model_options : List (String × String)
deriving DecidableEq, Repr

/-- Embedding of src/app.py lines 30-53: the secret store `st.secrets` is
an association list; presence of the key "GROQ_API_KEY" selects cloud
mode, absence selects local mode. -/
def resolveBackend (secrets : List (String × String)) : BackendConfig :=
  match secrets.lookup "GROQ_API_KEY" with
  | some key =>
      { env_mode := "Cloud"
        api_key := key
        base_url := "https://api.groq.com/openai/v1"
        model_options := cloud_model_options }
  | none =>
      { env_mode := "Local"
        api_key := "NA"
        base_url := "http://localhost:11434/v1"
        model_options := local_model_options }

/-- Embedding of src/app.py line 56:
`os.environ["OPENAI_API_KEY"] = api_key`, applied to an environment
modelled as a partial map from variable names to values. -/
def setOpenAIKey (env : String → Option String) (cfg : BackendConfig) :
    String → Option String :=
  fun k => if k = "OPENAI_API_KEY" then some cfg.api_key else env k

/-- The model identifiers offered in the sidebar selectbox
(src/app.py lines 96-101): `list(model_options.keys())`. -/
def offeredModels (cfg : BackendConfig) : List String :=
  cfg.model_options.map Prod.fst

/-- Keys of the cloud catalog. -/
def cloudKeys : List String := cloud_model_options.map Prod.fst

/-- Keys of the local catalog. -/
def localKeys : List String := local_model_options.map Prod.fst

/-- Whether a model identifier is provider-qualified in the
`<provider>/<model>` form, i.e. contains a slash. -/
def providerQualified (s : String) : Bool := s.data.contains '/'

/-! ### The entry point (src/crew.py lines 12-21) and its call site
(src/app.py lines 128-134) -/

/-- The configuration recorded by `LLM(model=..., api_key=...,
temperature=...)` in src/crew.py lines 17-21 (the construction stores its
arguments; the completion transport itself is the external litellm
collaborator). -/
structure LLM where
  model : String
  api_key : Option String
  temperature : ℚ
deriving DecidableEq, Repr

/-- Error class named by the specification for fail-fast argument
validation; no code in src/ ever constructs it. -/
structure ConfigurationError where
  message : String
deriving DecidableEq, Repr

/-- State of a constructed `ResearchCrew` object: src/crew.py lines 12-21
store the topic and the LLM configuration. -/
structure ResearchCrew where
  topic : String
  llm : LLM
deriving DecidableEq, Repr

/-- Embedding of `ResearchCrew.__init__` (src/crew.py lines 12-21).  The
result type offers a `ConfigurationError` channel so that the claimed
fail-fast validation is statable; the body, translated from the source,
performs no validation and always succeeds. -/
def ResearchCrew.init (topic model_name : String) (temperature : ℚ)
    (api_key : Option String) : Except ConfigurationError ResearchCrew :=
  .ok { topic := topic
        llm := { model := model_name, api_key := api_key, temperature := temperature } }

/-- The parameter names accepted by `ResearchCrew.__init__`
(src/crew.py line 12), `self` aside. -/
def researchCrewInitParams : List String :=
  ["topic", "model_name", "temperature", "api_key"]

/-- The keyword-argument names supplied at the `ResearchCrew(...)` call
site (src/app.py lines 128-134). -/
def appCallKeywords : List String :=
  ["topic", "model_name", "temperature", "base_url", "api_key"]

/-- A Python keyword call binds successfully only when every supplied
keyword names a declared parameter (there is no `**kwargs` in
src/crew.py); otherwise it raises `TypeError`. -/
def keywordCallAccepted (params kws : List String) : Bool :=
  kws.all fun k => params.contains k

/-- The keyword arguments the app passes to the entry point
(src/app.py lines 128-134): UI state plus the resolved backend values. -/
structure CrewCallArgs where
  topic : String
  model_name : String
  temperature : ℚ
  base_url : String
  api_key : String
deriving DecidableEq, Repr

/-- The argument tuple built at the call site src/app.py lines 128-134. -/
def appCrewCall (cfg : BackendConfig) (topic selected : String)
    (temperature : ℚ) : CrewCallArgs :=
  { topic := topic
    model_name := selected
    temperature := temperature
    base_url := cfg.base_url
    api_key := cfg.api_key }

/-! ### The sequential pipeline (spec §4.3-§4.5, §7)

`ResearchCrew.run` (src/crew.py lines 23-106) builds two Agents and two
Tasks and hands them to the crewai library's `Crew(...).kickoff()`.  The
execution engine itself (persona rendering, prompt building, sequential
context threading, abort-on-failure) lives in that external library, not
under src/, so it is modelled from the specification here. -/

namespace Crew

/-- Modelled from the spec: the `GenerationError` raised by the LLM
Client Binding collaborator on transport/auth/provider failure (spec
§4.2, §7); the collaborator (litellm, via crewai's `LLM`) is not under
src/. -/
structure GenerationError where
  message : String
deriving DecidableEq, Repr

/-- Modelled from the spec: the `PipelineAbort` the Pipeline raises on
any Task failure, carrying the 0-based position of the failing Task and
the underlying cause (spec §7); the Pipeline engine is not under src/. -/
structure PipelineAbort where
  failed_task : Nat
  cause : GenerationError
deriving DecidableEq, Repr

/-- Modelled from the spec: the LLM Client Binding's single operation
`complete(prompt) -> string`, which either returns generated text or
fails with a `GenerationError` (spec §4.2). -/
def LLMBinding : Type := String → Except GenerationError String

/-- An Agent's immutable persona (spec §3, §4.3); constructed with these
fields in src/crew.py lines 25-52. -/
structure Agent where
  role : String
  goal : String
  backstory : String
deriving DecidableEq, Repr

/-- Modelled from the spec: `Agent.render_persona()` deterministically
concatenates role, goal and backstory (spec §4.3); the rendering code is
not under src/. -/
def Agent.render_persona (a : Agent) : String :=
  a.role ++ "\n" ++ a.goal ++ "\n" ++ a.backstory

/-- A Task: instructions, success rubric, owning Agent (spec §3);
constructed with these fields in src/crew.py lines 55-96. -/
structure Task where
  description : String
  expected_output : String
  agent : Agent
deriving DecidableEq, Repr

/-- Modelled from the spec: `Task.build_prompt()` concatenates the
owning Agent's rendered persona, the Task's description, its
expected-output rubric, and - when present - the prior Task's recorded
output under a delimited context section (spec §4.4); the prompt
builder is not under src/. -/
def Task.build_prompt (t : Task) (upstream : Option String) : String :=
  t.agent.render_persona ++ "\n" ++ t.description ++ "\n" ++ t.expected_output ++
    match upstream with
    | none => ""
    | some ctx => "\ncontext from previous step:\n" ++ ctx

/-- Modelled from the spec: the sequential execution loop of the
Pipeline (spec §4.5), threading each Task's output into the next Task's
prompt.  Returns the recorded outputs of the successfully executed
Tasks in order, together with the `GenerationError` that aborted the
run, if any; the engine (crewai `Crew.kickoff`) is not under src/. -/
def execFrom (llm : LLMBinding) :
    Option String → List Task → List String × Option GenerationError
  | _, [] => ([], none)
  | up, t :: rest =>
    match llm (t.build_prompt up) with
    | .error e => ([], some e)
    | .ok out =>
      let r := execFrom llm (some out) rest
      (out :: r.1, r.2)

/-- Modelled from the spec: the prompts actually sent to `complete(...)`
during the run of `execFrom`, in order - one per executed Task,
including the failing attempt (spec §4.5, §7). -/
def promptsFrom (llm : LLMBinding) :
    Option String → List Task → List String
  | _, [] => []
  | up, t :: rest =>
    match llm (t.build_prompt up) with
    | .error _ => [t.build_prompt up]
    | .ok out => t.build_prompt up :: promptsFrom llm (some out) rest

/-- Modelled from the spec: `Pipeline.run()` / `Crew(...).kickoff()`
(spec §4.5, src/crew.py lines 99-106): run the Tasks in order; on any
`GenerationError` abort with a `PipelineAbort` carrying the failing
Task's position; on success return the last Task's output (the spec
makes `tasks` non-empty, so the `""` default is never reached there). -/
def kickoff (llm : LLMBinding) (tasks : List Task) :
    Except PipelineAbort String :=
  let r := execFrom llm none tasks
  match r.2 with
  | some e => .error { failed_task := r.1.length, cause := e }
  | none => .ok (r.1.getLastD "")

/-- Stub binding that deterministically echoes its prompt (spec §8). -/
def echoLLM : LLMBinding := fun p => .ok p

/-- Stub binding on which every completion call fails. -/
def failLLM : LLMBinding := fun _ => .error { message := "boom" }

/-- A small concrete agent for witnesses. -/
def sampleAgent : Agent := { role := "r", goal := "g", backstory := "b" }

/-- Two small concrete tasks for witnesses. -/
def sampleTasks : List Task :=
  [{ description := "d1", expected_output := "e1", agent := sampleAgent },
   { description := "d2", expected_output := "e2", agent := sampleAgent }]

/-- Default value used only as the `getLastD` fallback on task lists. -/
def dummyTask : Task :=
  { description := "", expected_output := ""
    agent := { role := "", goal := "", backstory := "" } }

end Crew

/-- The substring relation used by the context-threading statements:
`strContains s t` holds when `t` occurs contiguously inside `s`. -/
def strContains (s t : String) : Prop :=
  ∃ l r : List Char, l ++ t.data ++ r = s.data

/-! ### Console capture (src/utils.py, StreamToExpander)

Text is handled at character level here, since the ANSI-stripping regex
(ESC followed by either one byte in 0x40-0x5A or 0x5C-0x5F, or by a CSI
sequence: a bracket, parameter bytes 0x30-0x3F, intermediate bytes
0x20-0x2F, one final byte 0x40-0x7E) scans characters.  `re.sub`
performs a single left-to-right pass: it finds the leftmost match,
deletes it, and resumes scanning after the match end in the original
string; it never rescans the output. -/

/-- The ASCII escape character, `\x1B`. -/
def ESC : Char := '\x1B'

/-- Membership in the regex class `[@-Z\\-_]` (the two-character escape
sequences ESC @ .. ESC Z, ESC \ .. ESC _). -/
def isAnsiSingle (c : Char) : Bool :=
  (0x40 ≤ c.toNat && c.toNat ≤ 0x5A) || (0x5C ≤ c.toNat && c.toNat ≤ 0x5F)

/-- Membership in the regex class `[0-?]` (CSI parameter bytes). -/
def isAnsiParam (c : Char) : Bool := 0x30 ≤ c.toNat && c.toNat ≤ 0x3F

/-- Membership in the regex class of CSI intermediate bytes, space
through slash. -/
def isAnsiInter (c : Char) : Bool := 0x20 ≤ c.toNat && c.toNat ≤ 0x2F

/-- Membership in the regex class `[@-~]` (CSI final bytes). -/
def isAnsiFinal (c : Char) : Bool := 0x40 ≤ c.toNat && c.toNat ≤ 0x7E

/-- Match the tail of the CSI branch (parameter bytes, then intermediate
bytes, then one final byte) against the characters following `ESC [`,
returning the remainder after the match.  The three character classes
are pairwise disjoint, so greedy matching without backtracking is
exact. -/
def csiTail (l : List Char) : Option (List Char) :=
  match (l.dropWhile isAnsiParam).dropWhile isAnsiInter with
  | c :: rest => if isAnsiFinal c then some rest else none
  | [] => none

/-- Match the part of the pattern after the leading `ESC` against `l`,
returning the remainder after the match (`none` when the pattern does
not match at this position). -/
def ansiMatchTail : List Char → Option (List Char)
  | [] => none
  | c :: rest =>
    if isAnsiSingle c then some rest
    else if c = '[' then csiTail rest
    else none

/-- Fuel-driven core of the single-pass substitution: at each position,
if the pattern matches, delete the match and resume after it; otherwise
keep the character and advance by one.  One unit of fuel is spent per
examined position; `fuel ≥ l.length` is always enough. -/
def ansiSubFuel : Nat → List Char → List Char
  | 0, l => l
  | _ + 1, [] => []
  | fuel + 1, c :: rest =>
    if c = ESC then
      match ansiMatchTail rest with
      | some rest' => ansiSubFuel fuel rest'
      | none => c :: ansiSubFuel fuel rest
    else c :: ansiSubFuel fuel rest

/-- Embedding of `self.ansi_escape.sub('', data)` (src/utils.py line 53):
Python `re.sub` with the empty replacement, i.e. a single left-to-right
pass deleting every match. -/
def ansi_sub (l : List Char) : List Char := ansiSubFuel l.length l

/-- Whether the ANSI pattern matches anywhere in `l`, i.e. whether `l`
still contains a terminal escape sequence as the pattern defines them. -/
def hasAnsi : List Char → Bool
  | [] => false
  | c :: rest =>
    if c = ESC then ((ansiMatchTail rest).isSome || hasAnsi rest)
    else hasAnsi rest

/-- Characters removed by Python `str.strip()` with no arguments
(ASCII whitespace; the claims only involve ASCII data). -/
def pyIsSpace (c : Char) : Bool :=
  c = ' ' || c = '\t' || c = '\n' || c = '\r' || c = '\x0b' || c = '\x0c'

/-- Truthiness of `data.strip()` (src/utils.py line 51): the stripped
string is non-empty exactly when some character is not whitespace. -/
def pyNonBlank (l : List Char) : Bool := l.any fun c => !pyIsSpace c

/-- Python `"\n".join` over the buffered lines (src/utils.py line 58). -/
def joinNL : List (List Char) → List Char
  | [] => []
  | [l] => l
  | l :: l₂ :: ls => l ++ '\n' :: joinNL (l₂ :: ls)

/-- Python `buffer[-15:]` generalised: the last `n` elements. -/
def lastN (n : Nat) (l : List α) : List α := l.drop (l.length - n)

/-- State of a `StreamToExpander` object together with the content its
Streamlit container currently displays: `container` is an opaque handle,
`buffer` the captured lines, `ansi_escape` the compiled pattern's source
(fixed at construction, src/utils.py line 39), and `displayed` the text
last pushed to `container.code` (`none` before the first display). -/
structure StreamToExpander where
  container : Nat
  buffer : List (List Char)
  ansi_escape : List Char
  displayed : Option (List Char)
deriving DecidableEq, Repr

/-- Embedding of `StreamToExpander.__init__` (src/utils.py lines 26-39). -/
def StreamToExpander.init (container : Nat) : StreamToExpander :=
  { container := container
    buffer := []
    ansi_escape := ("\\x1B(?:[@-Z\\\\-_]|\\[[0-?]*[ -/]*[@-~])").data
    displayed := none }

/-- Embedding of `StreamToExpander.write` (src/utils.py lines 41-58):
on non-blank input, strip ANSI matches, append to the buffer, and
display the newline-join of the last 15 buffered lines; on blank input,
do nothing. -/
def StreamToExpander.write (s : StreamToExpander) (data : List Char) :
    StreamToExpander :=
  if pyNonBlank data then
    let clean_text := ansi_sub data
    let buffer := s.buffer ++ [clean_text]
    { s with
      buffer := buffer
      displayed := some (joinNL (lastN 15 buffer)) }
  else s

/-- A whole capture session: a fresh `StreamToExpander` on a container
followed by a sequence of `write` calls. -/
def runWrites (container : Nat) (inputs : List (List Char)) :
    StreamToExpander :=
  inputs.foldl StreamToExpander.write (StreamToExpander.init container)

/-- An empty process environment, used to instantiate witnesses. -/
def emptyEnv : String → Option String := fun _ => none

/-! ## Theorems -/

/-- C3: at startup, if the secret store contains the cloud credential
key "GROQ_API_KEY" then the resolved mode is cloud, the credential
equals the discovered secret, and the offered catalog is the fixed
cloud catalog; if the key is absent then the mode is local, the catalog
is the fixed local catalog, and the credential is the "NA" sentinel;
presence of that one key is the sole discriminator. -/
theorem c3_backend_resolution (secrets : List (String × String)) :
    (∀ v, secrets.lookup "GROQ_API_KEY" = some v →
      resolveBackend secrets =
        { env_mode := "Cloud", api_key := v,
          base_url := "https://api.groq.com/openai/v1",
          model_options := cloud_model_options }) ∧
    (secrets.lookup "GROQ_API_KEY" = none →
      resolveBackend secrets =
        { env_mode := "Local", api_key := "NA",
          base_url := "http://localhost:11434/v1",
          model_options := local_model_options }) ∧
    ((resolveBackend secrets).env_mode = "Cloud" ↔
      (secrets.lookup "GROQ_API_KEY").isSome = true) := by
  refine ⟨?_, ?_, ?_⟩ <;> cases h : secrets.lookup "GROQ_API_KEY" <;>
    simp [resolveBackend, h]

theorem c3_backend_resolution_witness :
    resolveBackend [("GROQ_API_KEY", "sk-test")] =
      { env_mode := "Cloud", api_key := "sk-test",
        base_url := "https://api.groq.com/openai/v1",
        model_options := cloud_model_options } ∧
    resolveBackend [] =
      { env_mode := "Local", api_key := "NA",
        base_url := "http://localhost:11434/v1",
        model_options := local_model_options } :=
  ⟨(c3_backend_resolution [("GROQ_API_KEY", "sk-test")]).1 "sk-test" rfl,
   (c3_backend_resolution []).2.1 rfl⟩

/-- C4: the entry point `ResearchCrew.__init__` does not accept an
endpoint parameter, although its one caller (src/app.py lines 128-134)
supplies the keyword `base_url`; the call is rejected with a Python
`TypeError`. -/
theorem c4_app_call_rejected_by_init :
    "base_url" ∈ appCallKeywords ∧
    "base_url" ∉ researchCrewInitParams ∧
    keywordCallAccepted researchCrewInitParams appCallKeywords = false := by
  decide

/-- C5 counterexample: a call of the entry point with an empty topic, a
temperature outside the interval 0 to 1, and a model identifier in
neither catalog raises no `ConfigurationError` - construction succeeds
and records the arguments unchanged. -/
theorem c5_no_validation_counterexample :
    "".isEmpty = true ∧
    ¬((0:ℚ) ≤ 5 ∧ (5:ℚ) ≤ 1) ∧
    "bogus-model" ∉ cloudKeys ∧ "bogus-model" ∉ localKeys ∧
    ResearchCrew.init "" "bogus-model" 5 (some "NA") =
      .ok { topic := ""
            llm := { model := "bogus-model", api_key := some "NA",
                     temperature := 5 } } :=
  ⟨rfl, by decide, by decide, by decide, rfl⟩

/-- C5 amended: the entry point performs no fail-fast validation at
all - every construction, with any topic, model identifier, temperature
and credential, succeeds without raising `ConfigurationError`, merely
recording its arguments. -/
theorem c5_init_never_raises (topic model_name : String)
    (temperature : ℚ) (api_key : Option String) :
    ResearchCrew.init topic model_name temperature api_key =
      .ok { topic := topic
            llm := { model := model_name, api_key := api_key,
                     temperature := temperature } } := rfl

/-- C6: exactly one backend mode is active for a given secret store,
every model identifier offered by the selectbox is drawn from the
catalog of the active mode, and no cloud model identifier is ever
paired with the local endpoint nor a local model identifier with the
cloud endpoint. -/
theorem c6_mode_catalog_endpoint_coherence (secrets : List (String × String))
    (m : String) (hm : m ∈ offeredModels (resolveBackend secrets)) :
    ((resolveBackend secrets).env_mode = "Cloud" ∨
      (resolveBackend secrets).env_mode = "Local") ∧
    ¬((resolveBackend secrets).env_mode = "Cloud" ∧
      (resolveBackend secrets).env_mode = "Local") ∧
    ((resolveBackend secrets).env_mode = "Cloud" → m ∈ cloudKeys) ∧
    ((resolveBackend secrets).env_mode = "Local" → m ∈ localKeys) ∧
    ¬(m ∈ cloudKeys ∧
      (resolveBackend secrets).base_url = "http://localhost:11434/v1") ∧
    ¬(m ∈ localKeys ∧
      (resolveBackend secrets).base_url = "https://api.groq.com/openai/v1") := by
  cases h : secrets.lookup "GROQ_API_KEY" with
  | some v =>
    simp only [offeredModels, resolveBackend, h] at hm
    simp only [cloud_model_options, List.map, List.mem_cons,
      List.not_mem_nil, or_false] at hm
    rcases hm with rfl | rfl | rfl <;> simp [resolveBackend, h] <;> decide
  | none =>
    simp only [offeredModels, resolveBackend, h] at hm
    simp only [local_model_options, List.map, List.mem_cons,
      List.not_mem_nil, or_false] at hm
    rcases hm with rfl | rfl | rfl <;> simp [resolveBackend, h] <;> decide

theorem c6_mode_catalog_endpoint_coherence_witness :
    "mistral" ∈ offeredModels (resolveBackend []) ∧
    "mistral" ∈ localKeys :=
  ⟨by decide,
   (c6_mode_catalog_endpoint_coherence [] "mistral" (by decide)).2.2.2.1
     (by decide)⟩

/-- C7: contrary to the claim, no model identifier of the cloud catalog
is provider-qualified - none contains a slash - although each is mapped
to a display label; crew.py's own comment says model names include the
provider qualifier for routing. -/
theorem c7_cloud_catalog_unqualified :
    ("deepseek-r1-distill-llama-70b", "Thinking (DeepSeek R1 - Cloud)")
      ∈ cloud_model_options ∧
    cloud_model_options.all (fun p => !providerQualified p.1) = true ∧
    (∀ p ∈ cloud_model_options, p.2 ≠ "") := by decide

/-- C9: the process-wide OPENAI_API_KEY binding is set in both modes -
in cloud mode to the discovered secret, in local mode to the literal
sentinel "NA", which is also the credential the app passes to the entry
point. -/
theorem c9_env_binding_both_modes (secrets : List (String × String))
    (env : String → Option String) (topic selected : String) (temp : ℚ) :
    setOpenAIKey env (resolveBackend secrets) "OPENAI_API_KEY" =
      some ((resolveBackend secrets).api_key) ∧
    (∀ v, secrets.lookup "GROQ_API_KEY" = some v →
      (resolveBackend secrets).api_key = v) ∧
    (secrets.lookup "GROQ_API_KEY" = none →
      (resolveBackend secrets).api_key = "NA" ∧
      (appCrewCall (resolveBackend secrets) topic selected temp).api_key =
        "NA") := by
  refine ⟨by simp [setOpenAIKey], ?_, ?_⟩ <;>
    cases h : secrets.lookup "GROQ_API_KEY" <;>
      simp [resolveBackend, h, appCrewCall]

theorem c9_env_binding_both_modes_witness :
    setOpenAIKey emptyEnv (resolveBackend []) "OPENAI_API_KEY" =
      some ((resolveBackend []).api_key) ∧
    (resolveBackend []).api_key = "NA" ∧
    (appCrewCall (resolveBackend []) "The Future of AI in 2026" "mistral"
      (7/10)).api_key = "NA" ∧
    (resolveBackend [("GROQ_API_KEY", "sk-9")]).api_key = "sk-9" :=
  ⟨(c9_env_binding_both_modes [] emptyEnv "The Future of AI in 2026"
      "mistral" (7/10)).1,
   ((c9_env_binding_both_modes [] emptyEnv "The Future of AI in 2026"
      "mistral" (7/10)).2.2 rfl).1,
   ((c9_env_binding_both_modes [] emptyEnv "The Future of AI in 2026"
      "mistral" (7/10)).2.2 rfl).2,
   (c9_env_binding_both_modes [("GROQ_API_KEY", "sk-9")] emptyEnv
      "The Future of AI in 2026" "mistral" (7/10)).2.1 "sk-9" rfl⟩

/-- C10: a write whose input strips to the empty string leaves the
buffer unchanged and performs no display update, and every write leaves
the container handle and the compiled escape pattern unchanged. -/
theorem c10_write_frame (s : StreamToExpander) (data : List Char) :
    (pyNonBlank data = false →
      (s.write data).buffer = s.buffer ∧
      (s.write data).displayed = s.displayed) ∧
    (s.write data).container = s.container ∧
    (s.write data).ansi_escape = s.ansi_escape := by
  unfold StreamToExpander.write
  by_cases h : pyNonBlank data <;> simp [h]

theorem c10_write_frame_witness :
    pyNonBlank (" \n".data) = false ∧
    ((StreamToExpander.init 0).write (" \n".data)).buffer =
      (StreamToExpander.init 0).buffer ∧
    ((StreamToExpander.init 0).write (" \n".data)).displayed =
      (StreamToExpander.init 0).displayed ∧
    ((StreamToExpander.init 0).write (" \n".data)).container =
      (StreamToExpander.init 0).container ∧
    ((StreamToExpander.init 0).write (" \n".data)).ansi_escape =
      (StreamToExpander.init 0).ansi_escape :=
  ⟨by decide,
   ((c10_write_frame (StreamToExpander.init 0) (" \n".data)).1 (by decide)).1,
   ((c10_write_frame (StreamToExpander.init 0) (" \n".data)).1 (by decide)).2,
   (c10_write_frame (StreamToExpander.init 0) (" \n".data)).2.1,
   (c10_write_frame (StreamToExpander.init 0) (" \n".data)).2.2⟩

/-! ### Pipeline lemmas (towards C1 and C2) -/

theorem strData_append (s t : String) : (s ++ t).data = s.data ++ t.data := rfl

theorem getLastD_of_ne_nil {α : Type} (l : List α) (h : l ≠ [])
    (d₁ d₂ : α) : l.getLastD d₁ = l.getLastD d₂ := by
  cases l with
  | nil => exact absurd rfl h
  | cons a l₂ => simp only [List.getLastD_cons]

/-- Every prompt built for a task embeds that task's description. -/
theorem build_prompt_contains_description (t : Crew.Task) (up : Option String) :
    strContains (t.build_prompt up) t.description := by
  cases up with
  | none =>
    refine ⟨(t.agent.render_persona ++ "\n").data,
            ("\n" ++ t.expected_output).data ++ [], ?_⟩
    simp [Crew.Task.build_prompt, Crew.Agent.render_persona, strData_append,
      List.append_assoc]
  | some ctx =>
    refine ⟨(t.agent.render_persona ++ "\n").data,
            ("\n" ++ t.expected_output ++
              "\ncontext from previous step:\n" ++ ctx).data, ?_⟩
    simp [Crew.Task.build_prompt, Crew.Agent.render_persona, strData_append,
      List.append_assoc]

/-- Every prompt built with an upstream context embeds that context. -/
theorem build_prompt_contains_upstream (t : Crew.Task) (ctx : String) :
    strContains (t.build_prompt (some ctx)) ctx :=
  ⟨(t.agent.render_persona ++ "\n" ++ t.description ++ "\n" ++
      t.expected_output ++ "\ncontext from previous step:\n").data, [], by
    simp [Crew.Task.build_prompt, Crew.Agent.render_persona, strData_append,
      List.append_assoc]⟩

/-- A binding on which every call succeeds returns some output for each
prompt. -/
theorem crew_ok_exists (llm : Crew.LLMBinding)
    (hok : ∀ p, (llm p).isOk = true) (p : String) :
    ∃ out, llm p = .ok out := by
  cases h : llm p with
  | error e =>
    have := hok p
    rw [h] at this
    simp [Except.isOk, Except.toBool] at this
  | ok out => exact ⟨out, rfl⟩

/-- Under an always-succeeding binding the run completes: no error is
recorded, and there is exactly one output and one prompt per task. -/
theorem crew_exec_ok (llm : Crew.LLMBinding)
    (hok : ∀ p, (llm p).isOk = true) :
    ∀ (tasks : List Crew.Task) (up : Option String),
      (Crew.execFrom llm up tasks).2 = none ∧
      (Crew.execFrom llm up tasks).1.length = tasks.length ∧
      (Crew.promptsFrom llm up tasks).length = tasks.length := by
  intro tasks
  induction tasks with
  | nil => intro up; simp [Crew.execFrom, Crew.promptsFrom]
  | cons t rest ih =>
    intro up
    obtain ⟨out, hout⟩ := crew_ok_exists llm hok (t.build_prompt up)
    have h := ih (some out)
    simp [Crew.execFrom, Crew.promptsFrom, hout, h.1, h.2.1, h.2.2]

/-- Under an always-succeeding binding, the prompt of the last task is
built from the last task, with upstream context the output recorded for
the immediately preceding task (or the initial upstream for a
single-task pipeline). -/
theorem crew_last_prompt (llm : Crew.LLMBinding)
    (hok : ∀ p, (llm p).isOk = true) :
    ∀ (tasks : List Crew.Task) (up : Option String), tasks ≠ [] →
      (Crew.promptsFrom llm up tasks).getLastD "" =
        Crew.Task.build_prompt (tasks.getLastD Crew.dummyTask)
          (if tasks.length ≤ 1 then up
           else some ((Crew.execFrom llm up tasks).1.getD
                        (tasks.length - 2) "")) := by
  intro tasks
  induction tasks with
  | nil => intro up h; exact absurd rfl h
  | cons t rest ih =>
    intro up _
    obtain ⟨out, hout⟩ := crew_ok_exists llm hok (t.build_prompt up)
    by_cases hr : rest = []
    · subst hr
      simp [Crew.promptsFrom, hout]
    · have hplen := (crew_exec_ok llm hok rest (some out)).2.2
      have hrlen : rest.length ≠ 0 := by
        simpa [List.length_eq_zero] using hr
      have hpne : Crew.promptsFrom llm (some out) rest ≠ [] := by
        intro h0
        rw [h0] at hplen
        exact hrlen (by simpa using hplen.symm)
      have lhs₁ :
          (Crew.promptsFrom llm up (t :: rest)).getLastD "" =
            (Crew.promptsFrom llm (some out) rest).getLastD "" := by
        have : Crew.promptsFrom llm up (t :: rest) =
            t.build_prompt up :: Crew.promptsFrom llm (some out) rest := by
          simp [Crew.promptsFrom, hout]
        rw [this, List.getLastD_cons]
        exact getLastD_of_ne_nil _ hpne _ _
      have hexec :
          (Crew.execFrom llm up (t :: rest)).1 =
            out :: (Crew.execFrom llm (some out) rest).1 := by
        simp [Crew.execFrom, hout]
      have hlast : (t :: rest).getLastD Crew.dummyTask =
          rest.getLastD Crew.dummyTask := by
        rw [List.getLastD_cons]
        exact getLastD_of_ne_nil _ hr _ _
      rw [lhs₁, ih (some out) hr, hexec, hlast]
      have hcons : (t :: rest).length = rest.length + 1 := by simp
      obtain ⟨k, hk⟩ : ∃ k, rest.length = k + 1 :=
        ⟨rest.length - 1, by omega⟩
      cases k with
      | zero =>
        rw [if_pos (by omega), if_neg (by omega)]
        have h₀ : (t :: rest).length - 2 = 0 := by omega
        rw [h₀, List.getD_cons_zero]
      | succ k₂ =>
        rw [if_neg (by omega), if_neg (by omega)]
        have h₁ : (t :: rest).length - 2 = k₂ + 1 := by omega
        have h₂ : rest.length - 2 = k₂ := by omega
        rw [h₁, h₂, List.getD_cons_succ]

/-- C1: over any non-empty task sequence in which every completion call
succeeds, the pipeline returns exactly the last task's recorded output,
one output and one prompt are recorded per task, and the last task's
prompt contains its description and - when a preceding task exists -
the immediately preceding task's recorded output as substrings. -/
theorem c1_run_returns_last_and_threads_context
    (llm : Crew.LLMBinding) (tasks : List Crew.Task)
    (hne : tasks ≠ []) (hok : ∀ p, (llm p).isOk = true) :
    Crew.kickoff llm tasks =
      .ok ((Crew.execFrom llm none tasks).1.getLastD "") ∧
    (Crew.execFrom llm none tasks).1.length = tasks.length ∧
    (Crew.promptsFrom llm none tasks).length = tasks.length ∧
    strContains ((Crew.promptsFrom llm none tasks).getLastD "")
      ((tasks.getLastD Crew.dummyTask).description) ∧
    (2 ≤ tasks.length →
      strContains ((Crew.promptsFrom llm none tasks).getLastD "")
        ((Crew.execFrom llm none tasks).1.getD (tasks.length - 2) "")) := by
  have h := crew_exec_ok llm hok tasks none
  have hlp := crew_last_prompt llm hok tasks none hne
  refine ⟨?_, h.2.1, h.2.2, ?_, ?_⟩
  · simp [Crew.kickoff, h.1]
  · rw [hlp]
    exact build_prompt_contains_description _ _
  · intro h2
    rw [hlp, if_neg (by omega)]
    exact build_prompt_contains_upstream _ _

theorem c1_run_returns_last_and_threads_context_witness :
    Crew.kickoff Crew.echoLLM Crew.sampleTasks =
      .ok ((Crew.execFrom Crew.echoLLM none Crew.sampleTasks).1.getLastD "") ∧
    (Crew.execFrom Crew.echoLLM none Crew.sampleTasks).1.length =
      Crew.sampleTasks.length ∧
    (Crew.promptsFrom Crew.echoLLM none Crew.sampleTasks).length =
      Crew.sampleTasks.length ∧
    strContains
      ((Crew.promptsFrom Crew.echoLLM none Crew.sampleTasks).getLastD "")
      ((Crew.sampleTasks.getLastD Crew.dummyTask).description) ∧
    strContains
      ((Crew.promptsFrom Crew.echoLLM none Crew.sampleTasks).getLastD "")
      ((Crew.execFrom Crew.echoLLM none Crew.sampleTasks).1.getD
        (Crew.sampleTasks.length - 2) "") :=
  ⟨(c1_run_returns_last_and_threads_context Crew.echoLLM Crew.sampleTasks
      (by decide) (fun p => rfl)).1,
   (c1_run_returns_last_and_threads_context Crew.echoLLM Crew.sampleTasks
      (by decide) (fun p => rfl)).2.1,
   (c1_run_returns_last_and_threads_context Crew.echoLLM Crew.sampleTasks
      (by decide) (fun p => rfl)).2.2.1,
   (c1_run_returns_last_and_threads_context Crew.echoLLM Crew.sampleTasks
      (by decide) (fun p => rfl)).2.2.2.1,
   (c1_run_returns_last_and_threads_context Crew.echoLLM Crew.sampleTasks
      (by decide) (fun p => rfl)).2.2.2.2 (by decide)⟩

/-- Under any binding, if a failing prompt occurs among those sent, the
execution loop records the error, sends exactly one prompt more than
the outputs it recorded, and stops within the task list. -/
theorem crew_exec_err (llm : Crew.LLMBinding) :
    ∀ (tasks : List Crew.Task) (up : Option String),
      (∃ p ∈ Crew.promptsFrom llm up tasks, (llm p).isOk = false) →
      ∃ e, (Crew.execFrom llm up tasks).2 = some e ∧
        (Crew.promptsFrom llm up tasks).length =
          (Crew.execFrom llm up tasks).1.length + 1 ∧
        (Crew.execFrom llm up tasks).1.length + 1 ≤ tasks.length := by
  intro tasks
  induction tasks with
  | nil => intro up h; simp [Crew.promptsFrom] at h
  | cons t rest ih =>
    intro up hfail
    cases hout : llm (t.build_prompt up) with
    | error e =>
      refine ⟨e, ?_, ?_, ?_⟩ <;> simp [Crew.execFrom, Crew.promptsFrom, hout]
    | ok out =>
      have hrest : ∃ p ∈ Crew.promptsFrom llm (some out) rest,
          (llm p).isOk = false := by
        rcases hfail with ⟨p, hp, hperr⟩
        simp only [Crew.promptsFrom, hout, List.mem_cons] at hp
        rcases hp with rfl | hp
        · rw [hout] at hperr
          simp [Except.isOk, Except.toBool] at hperr
        · exact ⟨p, hp, hperr⟩
      obtain ⟨e, h1, h2, h3⟩ := ih (some out) hrest
      refine ⟨e, ?_, ?_, ?_⟩ <;>
        simp [Crew.execFrom, Crew.promptsFrom, hout, h1, h2]
      omega

/-- C2: if any completion call of the run fails, the pipeline raises a
`PipelineAbort` carrying the failing task's 0-based position - the
number of outputs recorded before the failure - and its cause, and no
task after the failing one is executed: the prompts sent number exactly
one more than the recorded outputs and never exceed the task count. -/
theorem c2_abort_on_generation_error (llm : Crew.LLMBinding)
    (tasks : List Crew.Task)
    (hfail : ∃ p ∈ Crew.promptsFrom llm none tasks, (llm p).isOk = false) :
    Crew.kickoff llm tasks =
      .error { failed_task := (Crew.execFrom llm none tasks).1.length
               cause := ((Crew.execFrom llm none tasks).2).getD
                          { message := "" } } ∧
    (Crew.promptsFrom llm none tasks).length =
      (Crew.execFrom llm none tasks).1.length + 1 ∧
    (Crew.execFrom llm none tasks).1.length + 1 ≤ tasks.length := by
  obtain ⟨e, h1, h2, h3⟩ := crew_exec_err llm tasks none hfail
  refine ⟨?_, h2, h3⟩
  simp [Crew.kickoff, h1]

theorem c2_abort_on_generation_error_witness :
    Crew.kickoff Crew.failLLM Crew.sampleTasks =
      .error { failed_task :=
                 (Crew.execFrom Crew.failLLM none Crew.sampleTasks).1.length
               cause := ((Crew.execFrom Crew.failLLM none
                 Crew.sampleTasks).2).getD { message := "" } } ∧
    (Crew.promptsFrom Crew.failLLM none Crew.sampleTasks).length =
      (Crew.execFrom Crew.failLLM none Crew.sampleTasks).1.length + 1 ∧
    (Crew.execFrom Crew.failLLM none Crew.sampleTasks).1.length + 1 ≤
      Crew.sampleTasks.length :=
  c2_abort_on_generation_error Crew.failLLM Crew.sampleTasks (by decide)

/-! ### Console-capture lemmas (towards C8) -/

/-- A line with no ESC character matches the ANSI pattern nowhere. -/
theorem hasAnsi_eq_false_of_not_mem :
    ∀ l : List Char, ESC ∉ l → hasAnsi l = false := by
  intro l
  induction l with
  | nil => intro _; rfl
  | cons c rest ih =>
    intro h
    have hc : ¬(c = ESC) := fun hc => h (by simp [hc])
    simp only [hasAnsi, if_neg hc]
    exact ih (fun hm => h (by simp [hm]))

/-- Characters of a newline-join come from the joined lines or are the
newline separator. -/
theorem mem_joinNL :
    ∀ (ls : List (List Char)) (c : Char), c ∈ joinNL ls →
      c = '\n' ∨ ∃ l ∈ ls, c ∈ l := by
  intro ls
  induction ls with
  | nil => intro c hc; simp [joinNL] at hc
  | cons l ls ih =>
    intro c hc
    cases ls with
    | nil =>
      right
      exact ⟨l, by simp, by simpa [joinNL] using hc⟩
    | cons l₂ ls₂ =>
      simp only [joinNL, List.mem_append, List.mem_cons] at hc
      rcases hc with hc | hc | hc
      · exact Or.inr ⟨l, by simp, hc⟩
      · exact Or.inl hc
      · rcases ih c hc with h | ⟨l₃, hl₃, hcl₃⟩
        · exact Or.inl h
        · exact Or.inr ⟨l₃, by simp [hl₃], hcl₃⟩

/-- One `write` preserves the capture invariant: every buffered line is
ESC-free and the display, once set, is the newline-join of the last 15
buffered lines. -/
theorem write_preserves_clean (s : StreamToExpander) (d : List Char)
    (hbuf : ∀ l ∈ s.buffer, ESC ∉ l)
    (hdisp : s.displayed = none ∨
      s.displayed = some (joinNL (lastN 15 s.buffer)))
    (hd : ESC ∉ ansi_sub d) :
    (∀ l ∈ (s.write d).buffer, ESC ∉ l) ∧
    ((s.write d).displayed = none ∨
      (s.write d).displayed = some (joinNL (lastN 15 (s.write d).buffer))) := by
  unfold StreamToExpander.write
  by_cases h : pyNonBlank d = true
  · simp only [h, if_true]
    refine ⟨?_, Or.inr (by simp)⟩
    intro l hl
    rcases List.mem_append.mp hl with hl | hl
    · exact hbuf l hl
    · simp only [List.mem_singleton] at hl
      subst hl
      exact hd
  · simp only [h, if_false]
    exact ⟨hbuf, hdisp⟩

/-- One `write` unconditionally preserves the display-shape invariant:
the display, once set, is the newline-join of the last 15 buffered
lines - no assumption on the written data is needed. -/
theorem write_preserves_display (s : StreamToExpander) (d : List Char)
    (hdisp : s.displayed = none ∨
      s.displayed = some (joinNL (lastN 15 s.buffer))) :
    (s.write d).displayed = none ∨
      (s.write d).displayed = some (joinNL (lastN 15 (s.write d).buffer)) := by
  unfold StreamToExpander.write
  by_cases h : pyNonBlank d = true
  · simp only [h, if_true]
    exact Or.inr (by simp)
  · simp only [h, if_false]
    exact hdisp

/-- The display-shape invariant holds after any sequence of writes
whatsoever, from any state satisfying it. -/
theorem foldl_write_display :
    ∀ (inputs : List (List Char)) (s : StreamToExpander),
      (s.displayed = none ∨ s.displayed = some (joinNL (lastN 15 s.buffer))) →
      ((inputs.foldl StreamToExpander.write s).displayed = none ∨
        (inputs.foldl StreamToExpander.write s).displayed =
          some (joinNL
            (lastN 15 (inputs.foldl StreamToExpander.write s).buffer))) := by
  intro inputs
  induction inputs with
  | nil => intro s h; exact h
  | cons d ds ih =>
    intro s h
    exact ih (s.write d) (write_preserves_display s d h)

/-- The capture invariant holds after any sequence of ESC-clean writes
from any state satisfying it. -/
theorem foldl_write_clean :
    ∀ (inputs : List (List Char)),
      (∀ d ∈ inputs, ESC ∉ ansi_sub d) →
      ∀ s : StreamToExpander,
        (∀ l ∈ s.buffer, ESC ∉ l) →
        (s.displayed = none ∨
          s.displayed = some (joinNL (lastN 15 s.buffer))) →
        (∀ l ∈ (inputs.foldl StreamToExpander.write s).buffer, ESC ∉ l) ∧
        ((inputs.foldl StreamToExpander.write s).displayed = none ∨
          (inputs.foldl StreamToExpander.write s).displayed =
            some (joinNL
              (lastN 15 (inputs.foldl StreamToExpander.write s).buffer))) := by
  intro inputs
  induction inputs with
  | nil => intro _ s h1 h2; exact ⟨h1, h2⟩
  | cons d ds ih =>
    intro hin s h1 h2
    have hw := write_preserves_clean s d h1 h2 (hin d (by simp))
    exact ih (fun d₂ hd₂ => hin d₂ (by simp [hd₂])) (s.write d) hw.1 hw.2

/-- C8 counterexample: writing the single chunk ESC ESC `[0m` `A` to a
fresh capturer displays the two characters ESC `A` - the single
left-to-right pass removed the color-reset sequence but thereby
juxtaposed the leading stray ESC with `A`, and ESC `A` is itself a
match of the ANSI pattern, so the displayed text does contain a
terminal escape sequence. -/
theorem c8_escape_survives_counterexample :
    ((StreamToExpander.init 0).write ("\x1B\x1B[0mA").data).displayed =
      some [ESC, 'A'] ∧
    hasAnsi [ESC, 'A'] = true := by decide

/-- C8 amended: after every sequence of `write` calls whatsoever the
displayed text consists of at most the 15 most recently buffered lines
(the display, once set, is the newline-join of a suffix of the buffer
of length at most 15); and it contains no ANSI escape sequence provided
the single-pass removal left no ESC character in any written line
(which holds in particular for well-formed color or formatting
sequences). -/
theorem c8_display_bounded_and_clean (container : Nat)
    (inputs : List (List Char)) :
    ((runWrites container inputs).displayed = none ∨
      (runWrites container inputs).displayed =
        some (joinNL (lastN 15 (runWrites container inputs).buffer))) ∧
    (lastN 15 (runWrites container inputs).buffer).length ≤ 15 ∧
    lastN 15 (runWrites container inputs).buffer <:+
      (runWrites container inputs).buffer ∧
    ((∀ d ∈ inputs, ESC ∉ ansi_sub d) →
      ∀ t, (runWrites container inputs).displayed = some t →
        hasAnsi t = false) := by
  have hrun : runWrites container inputs =
      inputs.foldl StreamToExpander.write (StreamToExpander.init container) :=
    rfl
  rw [hrun]
  have hdisp := foldl_write_display inputs (StreamToExpander.init container)
    (Or.inl rfl)
  refine ⟨hdisp, ?_, List.drop_suffix _ _, ?_⟩
  · simp only [lastN, List.length_drop]
    omega
  · intro hin t ht
    have h := foldl_write_clean inputs hin (StreamToExpander.init container)
      (by simp [StreamToExpander.init]) (Or.inl rfl)
    rcases h.2 with h2 | h2
    · rw [h2] at ht
      cases ht
    · rw [h2] at ht
      cases ht
      apply hasAnsi_eq_false_of_not_mem
      intro hc
      rcases mem_joinNL _ ESC hc with h₃ | ⟨l, hl, hcl⟩
      · exact absurd h₃ (by decide)
      · exact h.1 l ((List.drop_suffix _ _).subset hl) hcl

theorem c8_display_bounded_and_clean_witness :
    (lastN 15 (runWrites 0 [("\x1B[31mRED\x1B[0m").data,
        ("plain").data]).buffer).length ≤ 15 ∧
    lastN 15 (runWrites 0 [("\x1B[31mRED\x1B[0m").data,
        ("plain").data]).buffer <:+
      (runWrites 0 [("\x1B[31mRED\x1B[0m").data, ("plain").data]).buffer ∧
    hasAnsi (joinNL (lastN 15 (runWrites 0
      [("\x1B[31mRED\x1B[0m").data, ("plain").data]).buffer)) = false :=
  ⟨(c8_display_bounded_and_clean 0
      [("\x1B[31mRED\x1B[0m").data, ("plain").data]).2.1,
   (c8_display_bounded_and_clean 0
      [("\x1B[31mRED\x1B[0m").data, ("plain").data]).2.2.1,
   (c8_display_bounded_and_clean 0
      [("\x1B[31mRED\x1B[0m").data, ("plain").data]).2.2.2 (by decide) _
      (by decide)⟩

